import Mathlib

/-!
Verification of the PyRunner_MCP kernel server and its MCP client.

The embedding is shallow: the Python module-level state (`global_namespace`,
`sys.stdout`/`sys.stderr`, `KERNEL_PROCESS`) becomes explicit state records
threaded through the functions, and the external facilities the code calls
(`json.loads`, `sys.getsizeof`, `time.time`, `psutil`, sockets) become oracle
parameters.  Submitted Python code is represented by a small statement
language (assignment, print, raise) that mirrors top-level sequential
execution against the persistent namespace; machine-level details such as
floating-point formatting are noted where they are approximated.
-/

namespace PyRunner

/-- A Python value held in the kernel namespace: an int, a str, or some other
object carrying its type name and the result of `repr` on it (`none` models a
`repr` that raises, which `handle_inspect` turns into a placeholder). -/
inductive PyVal where
  | int : Int → PyVal
  | str : String → PyVal
  | obj : String → Option String → PyVal
  deriving DecidableEq

/-- `repr(value)` as used by `handle_inspect`; `none` models a raised
exception.  String quoting keeps Python's surrounding quotes (escaping
inside the string is not modelled; no claim depends on it). -/
def pyRepr : PyVal → Option String
  | .int n => some (toString n)
  | .str s => some ("'" ++ s ++ "'")
  | .obj _ r => r

/-- `str(value)` as used by `print`. -/
def pyToStr : PyVal → String
  | .int n => toString n
  | .str s => s
  | .obj _ r => r.getD "<object>"

/-- `type(value).__name__`. -/
def pyTypeName : PyVal → String
  | .int _ => "int"
  | .str _ => "str"
  | .obj t _ => t

/-- The kernel's `global_namespace`: a Python dict, i.e. an insertion-ordered
mapping from identifier to value. -/
abbrev Namespace : Type := List (String × PyVal)

/-- Python dict assignment `ns[n] = v`: update in place if the key exists
(keeping its position), otherwise append at the end. -/
def nsSet : Namespace → String → PyVal → Namespace
  | [], n, v => [(n, v)]
  | (k, w) :: rest, n, v =>
      if k = n then (k, v) :: rest else (k, w) :: nsSet rest n v

/-- Python dict lookup `ns[n]`. -/
def nsGet (ns : Namespace) (n : String) : Option PyVal :=
  (ns.find? (fun p => p.1 == n)).map (fun p => p.2)

/-- The initial value of `global_namespace`, also what `handle_reset`
installs: the single reserved binding for `__name__`. -/
def initNamespace : Namespace := [("__name__", PyVal.str "__main__")]

/-! Submitted code: a small statement language mirroring the top-level
sequential statements `exec(code, global_namespace)` runs.  A statement
either binds a name, prints an expression to the current stdout, or raises
an exception. -/

/-- Expressions: literals and variable references (a missing variable raises
`NameError`). -/
inductive Expr where
  | lit : PyVal → Expr
  | var : String → Expr
  deriving DecidableEq

/-- Statements of the submitted code. -/
inductive Stmt where
  | assign : String → Expr → Stmt
  | printSt : Expr → Stmt
  | raiseSt : String → Stmt
  deriving DecidableEq

/-- The state `exec` threads: the live namespace and the text written so far
to the (redirected) stdout and stderr. -/
structure ExecSt where
  ns : Namespace
  out : String
  errOut : String
  deriving DecidableEq

/-- `traceback.format_exc()` for an exception line: a textual traceback
ending in the exception's own line. -/
def tracebackOf (excLine : String) : String :=
  "Traceback (most recent call last):\n  File \"<string>\", line 1, in <module>\n"
    ++ excLine ++ "\n"

/-- Expression evaluation; a missing name raises `NameError`. -/
def evalExpr (ns : Namespace) : Expr → Except String PyVal
  | .lit v => .ok v
  | .var n =>
      match nsGet ns n with
      | some v => .ok v
      | none => .error ("NameError: name '" ++ n ++ "' is not defined")

/-- One statement of `exec`: on a fault the error carries the traceback and
the state at the fault point (bindings already made are kept). -/
def execStmt (s : Stmt) (st : ExecSt) : Except (String × ExecSt) ExecSt :=
  match s with
  | .assign n e =>
      match evalExpr st.ns e with
      | .ok v => .ok { st with ns := nsSet st.ns n v }
      | .error msg => .error (tracebackOf msg, st)
  | .printSt e =>
      match evalExpr st.ns e with
      | .ok v => .ok { st with out := st.out ++ pyToStr v ++ "\n" }
      | .error msg => .error (tracebackOf msg, st)
  | .raiseSt excName => .error (tracebackOf excName, st)

/-- `exec(code, global_namespace)`: statements run in order; the first fault
stops execution, keeping the effects of the statements already run. -/
def execProg : List Stmt → ExecSt → Except (String × ExecSt) ExecSt
  | [], st => .ok st
  | s :: rest, st =>
      match execStmt s st with
      | .ok st1 => execProg rest st1
      | .error e => .error e

/-- An object identity for a stream (`sys.stdout` / `sys.stderr` refer to
stream objects; only their identity matters to the restoration claim). -/
abbrev StreamRef : Type := Nat

/-- The mutable `sys.stdout` / `sys.stderr` pair. -/
structure SysSt where
  stdout : StreamRef
  stderr : StreamRef
  deriving DecidableEq

/-- The kernel process state touched by `execute_code`: the persistent
namespace and the `sys` stream pair. -/
structure KernelSt where
  ns : Namespace
  sys : SysSt
  deriving DecidableEq

/-- The result dict of `execute_code`. -/
structure ExecResult where
  success : Bool
  stdout : String
  stderr : String
  error : Option String
  deriving DecidableEq

/-- Embeds `execute_code` of kernel_server.py: saves the original
`sys.stdout`/`sys.stderr`, redirects them into fresh capture buffers (the
buffers are the `out`/`errOut` fields of the exec state), runs the code, and
restores the originals in the `finally` block on both the success and the
fault path. -/
def execute_code (code : List Stmt) (st : KernelSt) : ExecResult × KernelSt :=
  let originalStdout := st.sys.stdout
  let originalStderr := st.sys.stderr
  match execProg code { ns := st.ns, out := "", errOut := "" } with
  | .ok s =>
      ({ success := true, stdout := s.out, stderr := s.errOut, error := none },
       { ns := s.ns, sys := { stdout := originalStdout, stderr := originalStderr } })
  | .error e =>
      ({ success := false, stdout := e.2.out, stderr := e.2.errOut, error := some e.1 },
       { ns := e.2.ns, sys := { stdout := originalStdout, stderr := originalStderr } })

/-! String operations mirroring the Python ones the server uses, written over
the character list of the string so that they are executable by the kernel:
`startswith`, `.lower()`, substring membership (`in`), slicing (`[:50]`), and
`bytes.replace` (all occurrences, left to right, non-overlapping). -/

/-- Python `s.startswith(pre)`. -/
def pyStartsWith (s pre : String) : Bool :=
  pre.data.isPrefixOf s.data

/-- Python `s.lower()` (`Char.toLower` per character; identical to Python on
ASCII identifiers, which is all the code compares). -/
def pyLower (s : String) : String :=
  String.mk (s.data.map Char.toLower)

/-- Whether `pat` occurs contiguously inside the list. -/
def charsInfix (pat : List Char) : List Char → Bool
  | [] => pat.isEmpty
  | c :: cs => pat.isPrefixOf (c :: cs) || charsInfix pat cs

/-- Python `sub in hay` (substring membership). -/
def pyContains (hay sub : String) : Bool :=
  charsInfix sub.data hay.data

/-- Python slicing `s[:n]`. -/
def pyTake (s : String) (n : Nat) : String :=
  String.mk (s.data.take n)

/-- Strip `pat` if it is a prefix, returning the remainder. -/
def dropPrefixQ : List Char → List Char → Option (List Char)
  | [], l => some l
  | _ :: _, [] => none
  | p :: ps, c :: cs => if p = c then dropPrefixQ ps cs else none

/-- Fuel-driven worker for `pyReplaceAll`; the fuel (the input's length)
makes the recursion structural while never running out. -/
def replaceAux (pat : List Char) : Nat → List Char → List Char
  | 0, l => l
  | _ + 1, [] => []
  | fuel + 1, c :: cs =>
      match dropPrefixQ pat (c :: cs) with
      | some rest => replaceAux pat fuel rest
      | none => c :: replaceAux pat fuel cs

/-- Python `s.replace(pat, "")` for a non-empty `pat`: removes every
occurrence, scanning left to right. -/
def pyRemoveAll (s pat : String) : String :=
  String.mk (replaceAux pat.data s.data.length s.data)

/-! The introspection, reset and status handlers of kernel_server.py. -/

/-- One entry of an inspect response. -/
structure VarInfo where
  name : String
  tyName : String
  size : String
  preview : String
  deriving DecidableEq

/-- The dict `handle_inspect` returns. -/
structure InspectResult where
  success : Bool
  count : Nat
  vars : List VarInfo
  deriving DecidableEq

/-- Renders a KB/MB tenths count as one truncated decimal digit. -/
def fmtTenths (tenths : Nat) : String :=
  toString (tenths / 10) ++ "." ++ toString (tenths % 10)

/-- Embeds `get_var_size`.  `sys.getsizeof` is external and passed in as
`szOf`, with `none` modelling a raised exception (the `except` branch returns
`"?"`).  Python's one-decimal float formatting is approximated by integer
truncation to one decimal place; no claim depends on the rendered digits. -/
def get_var_size (szOf : PyVal → Option Nat) (v : PyVal) : String :=
  match szOf v with
  | none => "?"
  | some size =>
      if size < 1024 then toString size ++ " B"
      else if size < 1024 * 1024 then fmtTenths (size * 10 / 1024) ++ " KB"
      else fmtTenths (size * 10 / (1024 * 1024)) ++ " MB"

/-- The preview `handle_inspect` computes for one value: `repr(value)[:50]`,
with `"..."` appended when the full repr is longer than 50 characters, and a
placeholder when `repr` raises. -/
def previewOf (v : PyVal) : String :=
  match pyRepr v with
  | none => "<無法預覽>"
  | some r => if r.length > 50 then pyTake r 50 ++ "..." else r

/-- Embeds `handle_inspect`: walks the namespace in order, skips identifiers
starting with `"_"`, applies the optional case-insensitive substring filter,
and builds one `VarInfo` per kept entry. -/
def handle_inspect (szOf : PyVal → Option Nat) (pattern : String)
    (ns : Namespace) : InspectResult :=
  let infos := ns.filterMap (fun p =>
    if pyStartsWith p.1 "_" then none
    else if pattern != "" && !pyContains (pyLower p.1) (pyLower pattern) then none
    else some { name := p.1, tyName := pyTypeName p.2,
                size := get_var_size szOf p.2, preview := previewOf p.2 })
  { success := true, count := infos.length, vars := infos }

/-- The dict `handle_reset` returns. -/
structure ResetResult where
  success : Bool
  message : String
  deriving DecidableEq

/-- Embeds `handle_reset`: replaces `global_namespace` with a fresh dict
holding only the `__name__` binding, whatever it held before. -/
def handle_reset (_ns : Namespace) : ResetResult × Namespace :=
  ({ success := true, message := "Kernel 已重置，所有變數已清空" }, initNamespace)

/-- The dict `handle_status` returns. -/
structure StatusResult where
  success : Bool
  uptime_seconds : Nat
  uptime_human : String
  variable_count : Nat
  memory_usage : String
  deriving DecidableEq

/-- Embeds `handle_status`.  `time.time()` and the start timestamp are passed
in as whole seconds; `mem` is the psutil RSS in MB, `none` when psutil is
unavailable (the `except` branch). -/
def handle_status (now startTime : Nat) (mem : Option Nat) (ns : Namespace) :
    StatusResult :=
  let uptime := now - startTime
  { success := true
    uptime_seconds := uptime
    uptime_human := toString (uptime / 60) ++ " 分 " ++ toString (uptime % 60) ++ " 秒"
    variable_count := (ns.filter (fun p => !pyStartsWith p.1 "_")).length
    memory_usage := match mem with
                    | some m => toString m ++ " MB"
                    | none => "無法取得（需安裝 psutil）" }

/-! The command dispatcher and the framed receive loop of `handle_client`,
and the sequential accept loop of `start_kernel_server`. -/

/-- The external facts the handlers consume: `sys.getsizeof`, the clock and
psutil. -/
structure KernelEnv where
  szOf : PyVal → Option Nat
  now : Nat
  startTime : Nat
  mem : Option Nat

/-- A decoded request document: the optional `action`, `code` and `pattern`
fields of the received JSON object. -/
structure Request where
  action : Option String := none
  code : Option (List Stmt) := none
  pattern : Option String := none
  deriving DecidableEq

/-- A response document: one of the handler result dicts, or the error dict
built by the `except` branch of `handle_client`. -/
inductive RespDoc where
  | executed : ExecResult → RespDoc
  | inspected : InspectResult → RespDoc
  | resetDone : ResetResult → RespDoc
  | statusRep : StatusResult → RespDoc
  | kernelError : String → RespDoc
  deriving DecidableEq

/-- The boolean-equivalent success indicator of a response document. -/
def respSuccess : RespDoc → Bool
  | .executed r => r.success
  | .inspected r => r.success
  | .resetDone r => r.success
  | .statusRep r => r.success
  | .kernelError _ => false

/-- The `error` field of a response document, when present. -/
def respError : RespDoc → Option String
  | .executed r => r.error
  | .kernelError e => some e
  | _ => none

/-- Embeds the action dispatch of `handle_client` (the `request.get` chain):
`action` defaults to `"execute"`, and anything that is not `"inspect"`,
`"reset"` or `"status"` falls through to `execute_code` with `code`
defaulting to the empty program. -/
def dispatch (env : KernelEnv) (req : Request) (st : KernelSt) :
    RespDoc × KernelSt :=
  let action := req.action.getD "execute"
  if action = "inspect" then
    (.inspected (handle_inspect env.szOf (req.pattern.getD "") st.ns), st)
  else if action = "reset" then
    let r := handle_reset st.ns
    (.resetDone r.1, { st with ns := r.2 })
  else if action = "status" then
    (.statusRep (handle_status env.now env.startTime env.mem st.ns), st)
  else
    let r := execute_code (req.code.getD []) st
    (.executed r.1, r.2)

/-- The request framing sentinel. -/
def sentinel : String := "\n__END__\n"

/-- Whether the sentinel occurs in the accumulated bytes. -/
def hasSentinel (data : String) : Bool :=
  pyContains data sentinel

/-- `data.replace(b"\n__END__\n", b"")`. -/
def stripSentinel (data : String) : String :=
  pyRemoveAll data sentinel

/-- Embeds the receive loop of `handle_client`: the elements of `chunks` are
the successive `recv` results, an empty chunk models the peer closing the
connection, and running out of chunks models the 30 s receive timeout (whose
handler also strips the sentinel before breaking).  `jsonOk` is the external
`json.loads` success test attempted opportunistically after every read. -/
def recvData (jsonOk : String → Bool) : List String → String → String
  | [], data => stripSentinel data
  | c :: rest, data =>
      if c = "" then data
      else
        let d := data ++ c
        if hasSentinel d then stripSentinel d
        else if jsonOk d then d
        else recvData jsonOk rest d

/-- Embeds `handle_client`: frame the request, drop it silently when empty,
decode it (`parseReq` is `json.loads` plus the field reads, whose raised
exception text is the `Except.error` payload, caught by the `except` branch),
dispatch, and answer on the same connection. -/
def handle_client (env : KernelEnv) (jsonOk : String → Bool)
    (parseReq : String → Except String Request) (chunks : List String)
    (st : KernelSt) : Option RespDoc × KernelSt :=
  let data := recvData jsonOk chunks ""
  if data = "" then (none, st)
  else
    match parseReq data with
    | .error e => (some (.kernelError ("Kernel error: " ++ e)), st)
    | .ok req =>
        let r := dispatch env req st
        (some r.1, r.2)

/-- Embeds the accept loop of `start_kernel_server`: connections are handled
strictly one after the other, each fully drained before the next; the list
collects the response (if any) sent on each connection. -/
def start_kernel_server (env : KernelEnv) (jsonOk : String → Bool)
    (parseReq : String → Except String Request) :
    List (List String) → KernelSt → List (Option RespDoc) × KernelSt
  | [], st => ([], st)
  | conn :: rest, st =>
      let r := handle_client env jsonOk parseReq conn st
      let rs := start_kernel_server env jsonOk parseReq rest r.2
      (r.1 :: rs.1, rs.2)

/-! The process supervisor (`_start_kernel` of PyRunner_MCP.py).  The OS
facts it consults — whether kernel_server.py exists, whether the endpoint
answers a connect, whether `Popen` raises, and what each poll attempt sees —
are the environment; its own state is the `KERNEL_PROCESS` handle, plus a
pid counter and a ghost count of how many child processes it has spawned. -/

/-- The outside world as `_start_kernel` observes it. -/
structure SupEnv where
  scriptExists : Bool
  probeReachable : Bool
  spawnRaises : Bool
  reachAfter : Nat → Bool
  exitedAt : Nat → Option Int

/-- The supervisor's own state. -/
structure SupSt where
  kernelProc : Option Nat
  nextPid : Nat
  spawnCount : Nat
  deriving DecidableEq

/-- The poll loop after a spawn: up to `fuel` attempts (50 in the source),
each sleeping then probing the endpoint; a successful connect reports
success, a child that already exited reports failure, and an exhausted
budget reports failure. -/
def waitKernelUp (env : SupEnv) (st : SupSt) : Nat → Nat → Bool × SupSt
  | _, 0 => (false, st)
  | i, fuel + 1 =>
      if env.reachAfter i then (true, st)
      else
        match env.exitedAt i with
        | some _ => (false, st)
        | none => waitKernelUp env st (i + 1) fuel

/-- Embeds `_start_kernel`: bail out when kernel_server.py is missing; probe
the endpoint and adopt an already-running kernel without spawning; otherwise
terminate any previously owned child, spawn a fresh one, and poll until it
is reachable.  The returned Bool is the success report (`Running`). -/
def _start_kernel (env : SupEnv) (st : SupSt) : Bool × SupSt :=
  if !env.scriptExists then (false, st)
  else if env.probeReachable then (true, st)
  else
    let st1 : SupSt := { st with kernelProc := none }
    if env.spawnRaises then (false, st1)
    else
      let st2 : SupSt := { kernelProc := some st1.nextPid, nextPid := st1.nextPid + 1,
                           spawnCount := st1.spawnCount + 1 }
      waitKernelUp env st2 0 50

/-! The RPC caller (`_execute_in_kernel` of PyRunner_MCP.py).  One full
exchange — connect, send the framed request, run the timed receive loop — is
abstracted into its observable outcome per attempt; the retry logic and the
response formatting are embedded from the source. -/

/-- The outcome of one full exchange attempt. -/
inductive AttemptResult where
  | received : String → AttemptResult
  | timedOut : AttemptResult
  | refused : AttemptResult
  | connFailed : String → AttemptResult
  deriving DecidableEq

/-- Python `"\n".join(parts)`. -/
def joinWithNl : List String → String
  | [] => ""
  | [p] => p
  | p :: q :: rest => p ++ "\n" ++ joinWithNl (q :: rest)

/-- Embeds the result formatting at the end of `_execute_in_kernel`
(`result["success"]` branch; empty strings are falsy, as in Python). -/
def formatExecResult (r : ExecResult) : String :=
  if r.success then
    let parts := ["OK 成功"]
      ++ (if r.stdout != "" then ["--- Output ---\n" ++ r.stdout] else [])
      ++ (if r.stderr != "" then ["--- Stderr ---\n" ++ r.stderr] else [])
    if parts.length > 1 then joinWithNl parts else "OK 成功（無輸出）"
  else
    let parts := ["ERROR 執行失敗"]
      ++ (if r.stdout != "" then ["--- Output ---\n" ++ r.stdout] else [])
      ++ (match r.error with
          | some e => if e != "" then ["--- Error ---\n" ++ e] else []
          | none => [])
    joinWithNl parts

/-- Embeds the exchange/retry logic of `_execute_in_kernel`.  `exchanges i`
is the observable outcome of the i-th full exchange; `parseResp` is
`json.loads` on the response bytes (its raised exception is caught by the
outer `except`, yielding the FATAL outcome); `retries` mirrors `_retry`
(`true` = 1, the retried call passes `False` = 0).  Returns the formatted
outcome string and the number of exchanges performed. -/
def _execute_in_kernel (exchanges : Nat → AttemptResult)
    (parseResp : String → Except String ExecResult) (timeout : Nat) :
    Nat → Nat → String × Nat
  | attempt, retries =>
      match exchanges attempt with
      | .timedOut =>
          ("[TIMEOUT] 執行超時 (" ++ toString timeout ++ "s)，任務可能仍在背景執行", 1)
      | .refused => ("[ERROR] Kernel 未啟動或連線被拒絕", 1)
      | .connFailed e => ("FATAL Kernel 連線錯誤: " ++ e, 1)
      | .received resp =>
          if resp = "" then
            match retries with
            | 0 => ("[ERROR] Kernel 無回應，請稍後重試", 1)
            | r + 1 =>
                let res := _execute_in_kernel exchanges parseResp timeout (attempt + 1) r
                (res.1, res.2 + 1)
          else
            match parseResp resp with
            | .ok r => (formatExecResult r, 1)
            | .error e => ("FATAL Kernel 連線錯誤: " ++ e, 1)

/-! Spec-side definitions: restatements of spec sentences to compare the
embedded code against, plus concrete sample inputs used by witnesses. -/

/-- Spec-side filter for one inspect entry, from the claim's words: keep an
identifier that does not start with the reserved prefix and, when the
pattern is non-empty, contains it case-insensitively. -/
def keepEntry (pattern name : String) : Bool :=
  !pyStartsWith name "_"
    && (pattern == "" || pyContains (pyLower name) (pyLower pattern))

/-- The `VarInfo` built for one kept entry. -/
def specVarInfo (szOf : PyVal → Option Nat) (p : String × PyVal) : VarInfo :=
  { name := p.1, tyName := pyTypeName p.2, size := get_var_size szOf p.2,
    preview := previewOf p.2 }

/-- Spec-side inspect: exactly the kept entries, in namespace order. -/
def inspectSpecVars (szOf : PyVal → Option Nat) (pattern : String)
    (ns : Namespace) : List VarInfo :=
  (ns.filter (fun p => keepEntry pattern p.1)).map (specVarInfo szOf)

/-- The concatenation of the first `k` chunks of a byte stream. -/
def accumData : List String → Nat → String
  | _, 0 => ""
  | [], _ + 1 => ""
  | c :: rest, k + 1 => c ++ accumData rest k

/-- The framing stop condition the receive loop tests after every read:
sentinel observed, or the accumulated bytes already parse. -/
def frameDone (jsonOk : String → Bool) (d : String) : Bool :=
  hasSentinel d || jsonOk d

/-- Runs a sequence of requests through the dispatcher, threading the kernel
state, and returns the final state. -/
def runRequests (env : KernelEnv) (reqs : List Request) (st : KernelSt) :
    KernelSt :=
  reqs.foldl (fun s r => (dispatch env r s).2) st

/-- The spec's partial-effect example: `x = 1` then `raise Exception()`. -/
def exampleFaultProg : List Stmt :=
  [.assign "x" (.lit (.int 1)), .raiseSt "Exception"]

/-- The spec's follow-up example: `print(x)`. -/
def examplePrintX : List Stmt := [.printSt (.var "x")]

/-- A fresh kernel state: the initial namespace and the process's original
stream objects. -/
def initKernelSt : KernelSt :=
  { ns := initNamespace, sys := { stdout := 0, stderr := 1 } }

/-- A concrete handler environment for witnesses. -/
def envW : KernelEnv :=
  { szOf := fun _ => none, now := 5, startTime := 2, mem := none }

/-- A concrete supervisor environment whose initial probe succeeds. -/
def supEnvW : SupEnv :=
  { scriptExists := true, probeReachable := true, spawnRaises := false,
    reachAfter := fun _ => false, exitedAt := fun _ => none }

/-- A concrete supervisor state. -/
def supStW : SupSt := { kernelProc := none, nextPid := 7, spawnCount := 0 }

/-- A concrete namespace for inspect witnesses. -/
def nsW : Namespace :=
  [("__hidden", PyVal.int 0), ("df", PyVal.str "frame"), ("count", PyVal.int 3)]

/-- A 60-character repr, longer than the 50-character preview cap. -/
def longReprW : String :=
  "012345678901234567890123456789012345678901234567890123456789"

/-- A concrete status request. -/
def reqStatus : Request := { action := some "status" }

/-- A concrete inspect request. -/
def reqInspect : Request := { action := some "inspect", pattern := some "x" }

/-! General helper lemmas shared by the claim theorems. -/

/-- A `filterMap` whose body is an if-guarded `some` is a `filter` followed
by a `map`. -/
theorem filterMap_eq_map_filter {α β : Type} (f : α → Option β) (q : α → Bool)
    (g : α → β) (h : ∀ x, f x = if q x then some (g x) else none) :
    ∀ l : List α, l.filterMap f = (l.filter q).map g := by
  intro l
  induction l with
  | nil => simp
  | cons a t ih =>
      cases hq : q a <;>
        simp [List.filterMap_cons, List.filter_cons, h a, hq, ih]

/-- The body of `handle_inspect`'s loop agrees pointwise with the spec-side
keep test. -/
theorem inspectBody_eq (pattern : String) (szOf : PyVal → Option Nat)
    (p : String × PyVal) :
    (if pyStartsWith p.1 "_" then none
     else if pattern != "" && !pyContains (pyLower p.1) (pyLower pattern) then none
     else some (specVarInfo szOf p))
    = if keepEntry pattern p.1 then some (specVarInfo szOf p) else none := by
  unfold keepEntry
  cases h1 : pyStartsWith p.1 "_" <;>
    cases h2 : (pattern == "") <;>
      cases h3 : pyContains (pyLower p.1) (pyLower pattern) <;>
        simp [h1, h2, h3, bne]

/-- A dispatch of an inspect or status request returns the kernel state it
was given. -/
theorem dispatch_readonly (env : KernelEnv) (r : Request) (st : KernelSt)
    (h : r.action = some "inspect" ∨ r.action = some "status") :
    (dispatch env r st).2 = st := by
  rcases h with h | h <;> simp [dispatch, h]

/-- With the retry budget exhausted (`_retry=False`), every branch of
`_execute_in_kernel` performs exactly one exchange. -/
theorem execNoRetry_count (exchanges : Nat → AttemptResult)
    (parseResp : String → Except String ExecResult) (timeout attempt : Nat) :
    (_execute_in_kernel exchanges parseResp timeout attempt 0).2 = 1 := by
  cases h : exchanges attempt with
  | received s =>
      by_cases hs : s = ""
      · simp [_execute_in_kernel, h, hs]
      · cases hp : parseResp s <;> simp [_execute_in_kernel, h, hs, hp]
  | timedOut => simp [_execute_in_kernel, h]
  | refused => simp [_execute_in_kernel, h]
  | connFailed e => simp [_execute_in_kernel, h]

/-! The claim theorems. -/

/-- C1: when execution of a code string raises a runtime fault, execute_code
returns success=false, the stdout/stderr captured up to the fault point and
a textual traceback in the error field, and the namespace keeps every
binding made by the statements that ran before the fault; in particular,
after `x = 1` followed by `raise Exception()` fails, a following `print(x)`
succeeds with stdout "1\n". -/
theorem claimC1 :
    (∀ (code : List Stmt) (st : KernelSt) (tb : String) (s : ExecSt),
        execProg code { ns := st.ns, out := "", errOut := "" } = .error (tb, s) →
        execute_code code st =
          ({ success := false, stdout := s.out, stderr := s.errOut,
             error := some tb },
           { ns := s.ns, sys := st.sys }))
    ∧ (execute_code exampleFaultProg initKernelSt).1.success = false
    ∧ (execute_code exampleFaultProg initKernelSt).1.error
        = some (tracebackOf "Exception")
    ∧ nsGet (execute_code exampleFaultProg initKernelSt).2.ns "x"
        = some (.int 1)
    ∧ (execute_code examplePrintX
          (execute_code exampleFaultProg initKernelSt).2).1
        = { success := true, stdout := "1\n", stderr := "", error := none } := by
  refine ⟨?_, by decide, by decide, by decide, by decide⟩
  intro code st tb s h
  simp [execute_code, h]

/-- C1 witness: the general fault lemma applied to the spec's partial-effect
example. -/
theorem claimC1_witness :
    execute_code exampleFaultProg initKernelSt =
      ({ success := false, stdout := "", stderr := "",
         error := some (tracebackOf "Exception") },
       { ns := nsSet initNamespace "x" (.int 1), sys := initKernelSt.sys }) :=
  claimC1.1 exampleFaultProg initKernelSt (tracebackOf "Exception")
    { ns := nsSet initNamespace "x" (.int 1), out := "", errOut := "" } rfl

/-- C2: execute_code restores `sys.stdout`/`sys.stderr` to the objects they
referred to before the call, on both the success and the fault path. -/
theorem claimC2 (code : List Stmt) (st : KernelSt) :
    (execute_code code st).2.sys = st.sys := by
  cases h : execProg code { ns := st.ns, out := "", errOut := "" } <;>
    simp [execute_code, h]

/-- C3 counterexample: handle_reset does not replace the namespace with an
empty one — the replacement dict carries the reserved `__name__` binding. -/
theorem claimC3_counterexample :
    (handle_reset [("x", PyVal.int 1)]).2 ≠ ([] : Namespace) := by decide

/-- C3 (amended): after handle_reset the namespace is replaced by a fresh one
holding only the reserved binding `__name__ = "__main__"` (no user
bindings), and an immediately following handle_inspect with empty pattern
returns count = 0 and an empty variables list. -/
theorem claimC3 (ns : Namespace) (szOf : PyVal → Option Nat) :
    (handle_reset ns).2 = initNamespace ∧
    handle_inspect szOf "" (handle_reset ns).2 =
      { success := true, count := 0, vars := [] } := by
  refine ⟨rfl, ?_⟩
  have h : pyStartsWith "__name__" "_" = true := by decide
  simp [handle_inspect, handle_reset, initNamespace, h]

/-- C8: when the supervisor's start operation finds the endpoint already
reachable by its initial probe, it reports success (Running) without
spawning any child process or otherwise touching its state. -/
theorem claimC8 (env : SupEnv) (st : SupSt)
    (hscript : env.scriptExists = true) (hprobe : env.probeReachable = true) :
    _start_kernel env st = (true, st) := by
  simp [_start_kernel, hscript, hprobe]

/-- C8 witness: a concrete already-reachable environment is adopted. -/
theorem claimC8_witness : _start_kernel supEnvW supStW = (true, supStW) :=
  claimC8 supEnvW supStW rfl rfl

/-- C10: a request whose action field is absent or anything other than
"inspect", "reset" or "status" is dispatched to execute_code, with the code
field defaulting to the empty program; no request is rejected for an
unrecognized action. -/
theorem claimC10 (env : KernelEnv) (req : Request) (st : KernelSt)
    (h1 : req.action ≠ some "inspect") (h2 : req.action ≠ some "reset")
    (h3 : req.action ≠ some "status") :
    dispatch env req st =
      (.executed (execute_code (req.code.getD []) st).1,
       (execute_code (req.code.getD []) st).2) := by
  unfold dispatch
  cases ha : req.action with
  | none =>
      simp only [Option.getD_none]
      rw [if_neg (by decide), if_neg (by decide), if_neg (by decide)]
  | some a =>
      simp only [Option.getD_some]
      rw [if_neg (fun hh => h1 (by rw [ha, hh])),
          if_neg (fun hh => h2 (by rw [ha, hh])),
          if_neg (fun hh => h3 (by rw [ha, hh]))]

/-- C10 witness: an unrecognized action string falls through to execution. -/
theorem claimC10_witness :
    dispatch envW { action := some "frobnicate", code := some examplePrintX }
        initKernelSt =
      (.executed (execute_code examplePrintX initKernelSt).1,
       (execute_code examplePrintX initKernelSt).2) :=
  claimC10 envW { action := some "frobnicate", code := some examplePrintX }
    initKernelSt (by decide) (by decide) (by decide)

/-- The receive loop, started with `data` already accumulated, stops at the
first chunk after which the framing condition holds, strips the sentinel
exactly when the sentinel was what stopped it, and otherwise returns the
parseable accumulation unchanged. -/
theorem recvData_stops (jsonOk : String → Bool) :
    ∀ (chunks : List String) (data : String) (k : Nat),
      (∀ c ∈ chunks, c ≠ "") → k < chunks.length →
      (∀ j < k, frameDone jsonOk (data ++ accumData chunks (j + 1)) = false) →
      frameDone jsonOk (data ++ accumData chunks (k + 1)) = true →
      recvData jsonOk chunks data =
        (if hasSentinel (data ++ accumData chunks (k + 1))
         then stripSentinel (data ++ accumData chunks (k + 1))
         else data ++ accumData chunks (k + 1)) := by
  intro chunks
  induction chunks with
  | nil => intro data k _ hk; simp at hk
  | cons c rest ih =>
      intro data k hne hk hmin hstop
      have hc : ¬ c = "" := hne c (List.mem_cons_self c rest)
      cases k with
      | zero =>
          have hacc : accumData (c :: rest) (0 + 1) = c := by
            simp [accumData]
          rw [hacc] at hstop ⊢
          cases hs : hasSentinel (data ++ c) with
          | true => simp [recvData, hc, hs]
          | false =>
              have hj : jsonOk (data ++ c) = true := by
                simpa [frameDone, hs] using hstop
              simp [recvData, hc, hs, hj]
      | succ k =>
          have h0 := hmin 0 (Nat.succ_pos k)
          have hacc1 : accumData (c :: rest) (0 + 1) = c := by
            simp [accumData]
          rw [hacc1] at h0
          simp only [frameDone, Bool.or_eq_false_iff] at h0
          have step : recvData jsonOk (c :: rest) data
              = recvData jsonOk rest (data ++ c) := by
            simp [recvData, hc, h0.1, h0.2]
          have happ : ∀ m : Nat, data ++ accumData (c :: rest) (m + 1)
              = (data ++ c) ++ accumData rest m := by
            intro m
            simp [accumData, String.append_assoc]
          rw [happ (k + 1)] at hstop
          rw [step, happ (k + 1)]
          exact ih (data ++ c) k
            (fun q hq => hne q (List.mem_cons_of_mem c hq))
            (by simp only [List.length_cons] at hk; omega)
            (fun j hj => by
              have hm := hmin (j + 1) (Nat.succ_lt_succ hj)
              rwa [happ (j + 1)] at hm)
            hstop

/-- C4: the receive loop stops accumulating exactly when the sentinel
appears in the accumulated bytes (which is then stripped before decoding) or
when the accumulated bytes already parse as a complete JSON document, the
parse being attempted after every read: it runs past every earlier prefix on
which neither condition holds, and stops at the first one on which one
does. -/
theorem claimC4 (jsonOk : String → Bool) (chunks : List String) (k : Nat)
    (hne : ∀ c ∈ chunks, c ≠ "") (hk : k < chunks.length)
    (hmin : ∀ j < k, frameDone jsonOk (accumData chunks (j + 1)) = false)
    (hstop : frameDone jsonOk (accumData chunks (k + 1)) = true) :
    recvData jsonOk chunks "" =
      (if hasSentinel (accumData chunks (k + 1))
       then stripSentinel (accumData chunks (k + 1))
       else accumData chunks (k + 1)) := by
  have h := recvData_stops jsonOk chunks "" k hne hk
    (fun j hj => by simpa using hmin j hj) (by simpa using hstop)
  simpa using h

/-- C4 witness: a sentinel split across three reads stops the loop at the
third and is stripped. -/
theorem claimC4_witness :
    recvData (fun d => d == "ok") ["A", "\n__END", "__\nB"] "" = "AB" := by
  have h := claimC4 (fun d => d == "ok") ["A", "\n__END", "__\nB"] 2
    (by decide) (by decide) (by decide) (by decide)
  rw [h]
  decide

/-- C5: a non-empty request whose bytes fail to decode yields a structured
error response (success=false, error field set) on the same connection, the
namespace and streams are untouched, and the accept loop goes on to serve
the remaining connections exactly as before. -/
theorem claimC5 (env : KernelEnv) (jsonOk : String → Bool)
    (parseReq : String → Except String Request) (conn : List String)
    (st : KernelSt) (e : String)
    (h1 : recvData jsonOk conn "" ≠ "")
    (h2 : parseReq (recvData jsonOk conn "") = .error e) :
    handle_client env jsonOk parseReq conn st
        = (some (.kernelError ("Kernel error: " ++ e)), st)
    ∧ respSuccess (.kernelError ("Kernel error: " ++ e)) = false
    ∧ respError (.kernelError ("Kernel error: " ++ e))
        = some ("Kernel error: " ++ e)
    ∧ ∀ rest, start_kernel_server env jsonOk parseReq (conn :: rest) st
        = (some (.kernelError ("Kernel error: " ++ e))
              :: (start_kernel_server env jsonOk parseReq rest st).1,
           (start_kernel_server env jsonOk parseReq rest st).2) := by
  have hc : handle_client env jsonOk parseReq conn st
      = (some (.kernelError ("Kernel error: " ++ e)), st) := by
    simp [handle_client, h1, h2]
  refine ⟨hc, rfl, rfl, ?_⟩
  intro rest
  simp [start_kernel_server, hc]

/-- C5 witness: a single garbage chunk without sentinel is answered with the
error response and leaves the fresh kernel state unchanged. -/
theorem claimC5_witness :
    handle_client envW (fun _ => false)
        (fun _ => Except.error "Expecting value") ["not json"] initKernelSt
      = (some (.kernelError ("Kernel error: " ++ "Expecting value")),
         initKernelSt) :=
  (claimC5 envW (fun _ => false) (fun _ => Except.error "Expecting value")
    ["not json"] initKernelSt "Expecting value" (by decide) rfl).1

/-- The inspect handler's entry list is exactly the spec-side
filter-and-map. -/
theorem handle_inspect_vars (szOf : PyVal → Option Nat) (pattern : String)
    (ns : Namespace) :
    (handle_inspect szOf pattern ns).vars = inspectSpecVars szOf pattern ns := by
  have h := filterMap_eq_map_filter
    (fun p : String × PyVal =>
      if pyStartsWith p.1 "_" then none
      else if pattern != "" && !pyContains (pyLower p.1) (pyLower pattern) then none
      else some (specVarInfo szOf p))
    (fun p => keepEntry pattern p.1) (specVarInfo szOf)
    (fun p => inspectBody_eq pattern szOf p) ns
  exact h

/-- C6: handle_inspect returns exactly the namespace entries whose name does
not start with "_" and, for a non-empty pattern, contains it
case-insensitively; the count equals the number of returned entries; and
each preview is the value's repr, cut to its first 50 characters with "..."
appended exactly when the repr is longer than 50 (so 53 characters in
total), with a placeholder when repr raises. -/
theorem claimC6 (szOf : PyVal → Option Nat) (pattern : String)
    (ns : Namespace) :
    ((handle_inspect szOf pattern ns).vars = inspectSpecVars szOf pattern ns
     ∧ (handle_inspect szOf pattern ns).count
        = (handle_inspect szOf pattern ns).vars.length)
    ∧ (∀ v r, pyRepr v = some r → r.length ≤ 50 → previewOf v = r)
    ∧ (∀ v r, pyRepr v = some r → 50 < r.length →
        previewOf v = pyTake r 50 ++ "..." ∧ (previewOf v).length = 53)
    ∧ (∀ v, pyRepr v = none → previewOf v = "<無法預覽>") := by
  refine ⟨⟨handle_inspect_vars szOf pattern ns, rfl⟩, ?_, ?_, ?_⟩
  · intro v r h hle
    simp [previewOf, h]
    omega
  · intro v r h hlt
    have hp : previewOf v = pyTake r 50 ++ "..." := by
      simp [previewOf, h]
      omega
    refine ⟨hp, ?_⟩
    rw [hp, String.length_append]
    have h50 : (pyTake r 50).length = 50 := by
      show (r.data.take 50).length = 50
      have : r.length = r.data.length := rfl
      simp only [List.length_take]
      omega
    rw [h50]
    decide
  · intro v h
    simp [previewOf, h]

/-- C6 witness: the filter on a concrete namespace, plus the three preview
shapes at concrete values. -/
theorem claimC6_witness :
    (handle_inspect (fun _ => some 100) "DF" nsW).vars
        = inspectSpecVars (fun _ => some 100) "DF" nsW
    ∧ previewOf (PyVal.str "abc") = "'abc'"
    ∧ previewOf (PyVal.obj "DataFrame" (some longReprW))
        = pyTake longReprW 50 ++ "..."
    ∧ previewOf (PyVal.obj "T" none) = "<無法預覽>" := by
  have h := claimC6 (fun _ => some 100) "DF" nsW
  exact ⟨h.1.1, h.2.1 (PyVal.str "abc") "'abc'" rfl (by decide),
    (h.2.2.1 (PyVal.obj "DataFrame" (some longReprW)) longReprW rfl
      (by decide)).1,
    h.2.2.2 (PyVal.obj "T" none) rfl⟩

/-- C7: inspect and status requests leave the kernel state (and so the
namespace) unchanged, hence any sequence of them never changes the result
of a subsequent inspect. -/
theorem claimC7 (env : KernelEnv) (reqs : List Request) :
    ∀ st : KernelSt,
      (∀ r ∈ reqs, r.action = some "inspect" ∨ r.action = some "status") →
      runRequests env reqs st = st
      ∧ ∀ pat, handle_inspect env.szOf pat (runRequests env reqs st).ns
          = handle_inspect env.szOf pat st.ns := by
  induction reqs with
  | nil => intro st _; exact ⟨rfl, fun _ => rfl⟩
  | cons r t ih =>
      intro st h
      have hr : (dispatch env r st).2 = st :=
        dispatch_readonly env r st (h r (List.mem_cons_self r t))
      have step : runRequests env (r :: t) st
          = runRequests env t (dispatch env r st).2 := rfl
      rw [step, hr]
      exact ih st (fun q hq => h q (List.mem_cons_of_mem r hq))

/-- C7 witness: a status then an inspect leave a fresh kernel state
untouched. -/
theorem claimC7_witness :
    runRequests envW [reqStatus, reqInspect] initKernelSt = initKernelSt :=
  (claimC7 envW [reqStatus, reqInspect] initKernelSt (by decide)).1

/-- C9: when an execute exchange ends with the connection closed and zero
response bytes, the caller performs exactly one automatic retry of the whole
exchange (two exchanges in total); if the retry also yields an empty
response it returns the definitive kernel-unresponsive outcome instead of
retrying again, and otherwise the result is that of the single retried
exchange. -/
theorem claimC9 (exchanges : Nat → AttemptResult)
    (parseResp : String → Except String ExecResult) (timeout : Nat)
    (h0 : exchanges 0 = .received "") :
    (_execute_in_kernel exchanges parseResp timeout 0 1).2 = 2
    ∧ (exchanges 1 = .received "" →
        _execute_in_kernel exchanges parseResp timeout 0 1
          = ("[ERROR] Kernel 無回應，請稍後重試", 2))
    ∧ (∀ s, exchanges 1 = .received s → s ≠ "" →
        (_execute_in_kernel exchanges parseResp timeout 0 1).1
          = (_execute_in_kernel exchanges parseResp timeout 1 0).1) := by
  have step : _execute_in_kernel exchanges parseResp timeout 0 1
      = ((_execute_in_kernel exchanges parseResp timeout 1 0).1,
         (_execute_in_kernel exchanges parseResp timeout 1 0).2 + 1) := by
    conv_lhs => rw [_execute_in_kernel]
    simp [h0]
  refine ⟨?_, ?_, ?_⟩
  · rw [step]
    simp [execNoRetry_count]
  · intro h1
    have hsecond : _execute_in_kernel exchanges parseResp timeout 1 0
        = ("[ERROR] Kernel 無回應，請稍後重試", 1) := by
      rw [_execute_in_kernel]
      simp [h1]
    rw [step, hsecond]
  · intro s h1 hs
    rw [step]

/-- C9 witness: a kernel that never answers is given up on after exactly two
exchanges with the unresponsive outcome. -/
theorem claimC9_witness :
    _execute_in_kernel (fun _ => .received "")
        (fun _ => Except.error "boom") 60 0 1
      = ("[ERROR] Kernel 無回應，請稍後重試", 2) :=
  ((claimC9 (fun _ => .received "") (fun _ => Except.error "boom") 60
    rfl).2.1) rfl

end PyRunner
